import Mathlib

/-!
Verification development for the mrcrypt legacy-compatibility crypto
materials manager (src/mrcrypt/materials_manager.py).

The file shallowly embeds the class
MrcryptLegacyCompatibilityCryptoMaterialsManager. External collaborators
that the repository only calls through documented contracts (the inherited
DefaultCryptoMaterialsManager.decrypt_materials, the master key provider,
base64 decoding, and the elliptic-curve point routines of the cryptography
package) are modelled as function parameters or as concrete functions
implementing their documented behavior. Log emissions and provider
invocations are recorded in an event trace so that ordering and
observability properties can be stated.
-/

namespace Mrcrypt

/-- Byte strings are lists of naturals; every produced byte is below 256. -/
abbrev Bytes := List Nat

/-- Big-endian interpretation of a byte string as a natural number
(the semantics of int.from_bytes with byteorder big). -/
def bytesToNat (bs : Bytes) : Nat :=
  bs.foldl (fun acc b => acc * 256 + b) 0

/-- Big-endian encoding of a natural number into exactly s bytes
(the semantics of int.to_bytes for a value below 256 pow s). -/
def natToBytes : Nat → Nat → Bytes
  | 0, _ => []
  | s + 1, x => natToBytes s (x / 256) ++ [x % 256]

/-- The ASCII code of the base64 alphabet character for a 6-bit value
(RFC 4648 standard alphabet, as used by base64.b64encode). -/
def b64EncChar (n : Nat) : Nat :=
  if n < 26 then 65 + n
  else if n < 52 then 97 + (n - 26)
  else if n < 62 then 48 + (n - 52)
  else if n = 62 then 43
  else 47

/-- Inverse alphabet lookup: the 6-bit value of an ASCII code, or none when
the code is outside the standard base64 alphabet. -/
def b64DecChar (c : Nat) : Option Nat :=
  if 65 ≤ c ∧ c ≤ 90 then some (c - 65)
  else if 97 ≤ c ∧ c ≤ 122 then some (c - 97 + 26)
  else if 48 ≤ c ∧ c ≤ 57 then some (c - 48 + 52)
  else if c = 43 then some 62
  else if c = 47 then some 63
  else none

/-- Standard base64 encoding of a byte string into ASCII codes, with
padding, three input bytes per four output characters (base64.b64encode). -/
def b64encode : Bytes → Bytes
  | [] => []
  | [a] =>
      [b64EncChar (a / 4), b64EncChar (a % 4 * 16), 61, 61]
  | [a, b] =>
      [b64EncChar (a / 4), b64EncChar (a % 4 * 16 + b / 16),
       b64EncChar (b % 16 * 4), 61]
  | a :: b :: c :: rest =>
      b64EncChar (a / 4) :: b64EncChar (a % 4 * 16 + b / 16) ::
        b64EncChar (b % 16 * 4 + c / 64) :: b64EncChar (c % 64) ::
        b64encode rest

/-- Failure kinds of the embedded Python code. The constructors mirror the
Python exception classes that can cross the decrypt_materials boundary:
keyError is KeyError, sdkClientError covers the subclasses of
AWSEncryptionSDKClientError, malformedSignerKey covers the ValueError and
binascii.Error raised while parsing the signer key, invalidCurvePoint the
ValueError raised when a decoded point fails curve validation, typeError
the TypeError raised when a non-signing algorithm has no curve class. -/
inductive SdkErrorKind where
  | contextValueError
  | providerFailure
  | unknownAlgorithm
  | malformedCiphertext
deriving DecidableEq, Repr

inductive PyError where
  | keyError (key : String)
  | sdkClientError (kind : SdkErrorKind)
  | malformedSignerKey (msg : String)
  | invalidCurvePoint
  | typeError (msg : String)
  | otherError (name : String)
deriving DecidableEq, Repr

/-- The exception filter of the handler at line 66 of materials_manager.py:
except (AWSEncryptionSDKClientError, KeyError). Every subclass of
AWSEncryptionSDKClientError and every KeyError is caught; ValueError,
binascii.Error, TypeError and anything else is not. -/
def PyError.isCaughtByFallback : PyError → Bool
  | .keyError _ => true
  | .sdkClientError _ => true
  | _ => false

/-- Strict base64 decoding of ASCII codes back to bytes (base64.b64decode
on canonical input: length a multiple of four, alphabet characters, padding
only at the end). A padding violation raises binascii.Error in Python,
modelled as the malformedSignerKey failure kind with an explanatory tag. -/
def b64decode : Bytes → Except PyError Bytes
  | [] => .ok []
  | c1 :: c2 :: c3 :: c4 :: rest =>
    match b64DecChar c1, b64DecChar c2 with
    | some v1, some v2 =>
      if c3 = 61 ∧ c4 = 61 ∧ rest = [] then
        .ok [v1 * 4 + v2 / 16]
      else
        match b64DecChar c3 with
        | some v3 =>
          if c4 = 61 ∧ rest = [] then
            .ok [v1 * 4 + v2 / 16, v2 % 16 * 16 + v3 / 4]
          else
            match b64DecChar c4 with
            | some v4 =>
              match b64decode rest with
              | .ok tail =>
                  .ok ((v1 * 4 + v2 / 16) :: (v2 % 16 * 16 + v3 / 4) ::
                        (v3 % 4 * 64 + v4) :: tail)
              | .error e => .error e
            | none => .error (.malformedSignerKey "base64-invalid-character")
        | none => .error (.malformedSignerKey "base64-invalid-character")
    | _, _ => .error (.malformedSignerKey "base64-invalid-character")
  | _ => .error (.malformedSignerKey "base64-incorrect-padding")

/-- A named elliptic curve as the cryptography package exposes it: a key
size in bits and short-Weierstrass parameters over a prime field. -/
structure Curve where
  keySize : Nat
  p : Nat
  a : Nat
  b : Nat
deriving DecidableEq, Repr

/-- The field-element byte size of a curve: (key_size + 7) // 8, exactly
the byte_length computation of from_encoded_point. -/
def Curve.byteLength (c : Curve) : Nat := (c.keySize + 7) / 8

/-- Point validation performed when a public key object is constructed:
coordinates in range and satisfying the curve equation. -/
def Curve.onCurve (c : Curve) (x y : Nat) : Bool :=
  decide (x < c.p) && decide (y < c.p) &&
    decide ((y * y) % c.p = (x * x * x + c.a * x + c.b) % c.p)

/-- An algorithm suite: for a signing suite, signing_algorithm_info holds
the curve class; for a non-signing suite it is None. -/
structure Algorithm where
  signing_algorithm_info : Option Curve
deriving DecidableEq, Repr

/-- An encrypted data key: opaque ciphertext plus provider metadata. -/
structure EncryptedDataKey where
  key_provider_id : Bytes
  key_provider_info : Bytes
  encrypted_data_key : Bytes
deriving DecidableEq, Repr

/-- An encryption context: a string-keyed mapping, modelled as an
association list whose values are the ASCII codes of the value strings. -/
abbrev EncryptionContext := List (String × Bytes)

/-- Dictionary lookup on the encryption context (first matching key). -/
def lookupContext : EncryptionContext → String → Option Bytes
  | [], _ => none
  | (k, v) :: rest, key => if k = key then some v else lookupContext rest key

/-- The well-known context key holding the encoded signer key
(aws_encryption_sdk.internal.defaults.ENCODED_SIGNER_KEY). -/
def ENCODED_SIGNER_KEY : String := "aws-crypto-public-key"

/-- A decrypt materials request: encrypted data keys, algorithm suite, and
encryption context, all read-only. -/
structure DecryptionRequest where
  encrypted_data_keys : List EncryptedDataKey
  algorithm : Algorithm
  encryption_context : EncryptionContext
deriving DecidableEq, Repr

/-- Decryption materials: the plaintext data key and, for signing suites,
the DER-encoded verification key. -/
structure DecryptionMaterials where
  data_key : Bytes
  verification_key : Option Bytes
deriving DecidableEq, Repr

/-- EllipticCurvePublicNumbers.from_encoded_point of the cryptography
package: rejects an empty string, requires the uncompressed tag byte 0x04,
requires length 2 * byte_length + 1, and splits the remainder into the
big-endian X and Y coordinates. The ValueError raised on a structural
violation is the malformedSignerKey failure kind. -/
def fromEncodedPoint (curve : Curve) (data : Bytes) :
    Except PyError (Nat × Nat) :=
  match data with
  | [] => .error (.malformedSignerKey "point-empty")
  | t :: body =>
    if t = 4 then
      if body.length = 2 * curve.byteLength then
        .ok (bytesToNat (body.take curve.byteLength),
             bytesToNat (body.drop curve.byteLength))
      else .error (.malformedSignerKey "point-length")
    else .error (.malformedSignerKey "point-type")

/-- public_key(default_backend()): constructing the key object validates
that the coordinates form a point on the curve, raising ValueError
otherwise (the invalidCurvePoint failure kind). -/
def ecPublicKeyCheck (curve : Curve) (x y : Nat) : Except PyError Unit :=
  if curve.onCurve x y then .ok () else .error .invalidCurvePoint

/-- public_bytes with Encoding.DER and PublicFormat.SubjectPublicKeyInfo:
the standard key-container encoding, a deterministic function of the curve
and the public point that embeds the uncompressed point bytes. -/
def derSubjectPublicKeyInfo (curve : Curve) (x y : Nat) : Bytes :=
  48 :: (5 + 2 * curve.byteLength) :: 0 :: curve.keySize :: 3 ::
    (2 + 2 * curve.byteLength) :: 0 :: 4 ::
      (natToBytes curve.byteLength x ++ natToBytes curve.byteLength y)

/-- Lines 30-53 of materials_manager.py: the method
_load_uncompressed_verification_key_from_encryption_context. Reads the
signer-key string from the context (KeyError when absent), base64-decodes
it, instantiates the curve class (TypeError when signing_algorithm_info is
None), parses the uncompressed point, validates it, and returns the DER
SubjectPublicKeyInfo bytes of the reconstructed public key. -/
def load_uncompressed_verification_key_from_encryption_context
    (algorithm : Algorithm) (encryption_context : EncryptionContext) :
    Except PyError Bytes :=
  match lookupContext encryption_context ENCODED_SIGNER_KEY with
  | none => .error (.keyError ENCODED_SIGNER_KEY)
  | some s =>
    match b64decode s with
    | .error e => .error e
    | .ok uncompressed_point =>
      match algorithm.signing_algorithm_info with
      | none => .error (.typeError "NoneType is not callable")
      | some curve =>
        match fromEncodedPoint curve uncompressed_point with
        | .error e => .error e
        | .ok xy =>
          match ecPublicKeyCheck curve xy.1 xy.2 with
          | .error e => .error e
          | .ok _ => .ok (derSubjectPublicKeyInfo curve xy.1 xy.2)

/-- Observable events of one decrypt_materials call, in emission order:
the delegation to the inherited resolver, the two log emissions of the
handler (debug, then the warning about uncompressed keys), the master key
provider invocation with its outcome, and the signer-key decode step. -/
inductive Event where
  | stdAttempt
  | debugLog
  | warnUncompressedKey
  | providerCallOk (key : Bytes)
  | providerCallErr (e : PyError)
  | decodeSignerKey
deriving DecidableEq, Repr

/-- The materials manager: it holds the master key provider passed at
construction, and the inherited DefaultCryptoMaterialsManager behavior is
an external collaborator modelled as a function of the request. -/
structure MrcryptLegacyCompatibilityCryptoMaterialsManager where
  master_key_provider :
    List EncryptedDataKey → Algorithm → EncryptionContext →
      Except PyError Bytes
  super_decrypt_materials :
    DecryptionRequest → Except PyError DecryptionMaterials

/-- Lines 55-90 of materials_manager.py: decrypt_materials. Try the
inherited resolver; on AWSEncryptionSDKClientError or KeyError log a debug
message and a warning and fall through to the legacy path, which first
obtains the data key from the master key provider
(decrypt_data_key_from_list) and then decodes the uncompressed
verification key from the context; any other exception propagates.
The second component is the trace of observable events. -/
def decrypt_materials
    (self : MrcryptLegacyCompatibilityCryptoMaterialsManager)
    (request : DecryptionRequest) :
    Except PyError DecryptionMaterials × List Event :=
  match self.super_decrypt_materials request with
  | .ok materials => (.ok materials, [.stdAttempt])
  | .error e =>
    if e.isCaughtByFallback then
      match self.master_key_provider request.encrypted_data_keys
          request.algorithm request.encryption_context with
      | .error pe =>
          (.error pe,
           [.stdAttempt, .debugLog, .warnUncompressedKey,
            .providerCallErr pe])
      | .ok data_key =>
        match load_uncompressed_verification_key_from_encryption_context
            request.algorithm request.encryption_context with
        | .error ve =>
            (.error ve,
             [.stdAttempt, .debugLog, .warnUncompressedKey,
              .providerCallOk data_key, .decodeSignerKey])
        | .ok verification_key =>
            (.ok { data_key := data_key,
                   verification_key := some verification_key },
             [.stdAttempt, .debugLog, .warnUncompressedKey,
              .providerCallOk data_key, .decodeSignerKey])
    else
      (.error e, [.stdAttempt])

/-- Written from the words of the specification, for the refinement claim
about data keys: the data-key portion of the standard resolution path
invokes the master key provider with the request fields unchanged. -/
def standardDataKeyPortion
    (self : MrcryptLegacyCompatibilityCryptoMaterialsManager)
    (request : DecryptionRequest) : Except PyError Bytes :=
  self.master_key_provider request.encrypted_data_keys request.algorithm
    request.encryption_context

/-- The output invariant of the specification: no verification key for a
non-signing algorithm, and a verification key present whenever the
algorithm signs and the context declares a signer key. -/
def materialsInvariant (request : DecryptionRequest)
    (m : DecryptionMaterials) : Prop :=
  (request.algorithm.signing_algorithm_info = none →
     m.verification_key = none) ∧
  (request.algorithm.signing_algorithm_info ≠ none →
     lookupContext request.encryption_context ENCODED_SIGNER_KEY ≠ none →
     m.verification_key ≠ none)

/-! ## Concrete fixtures for evaluation -/

/-- A small short-Weierstrass curve for concrete evaluations: key size 7
bits, hence field-element byte size 1; parameters p = 97, a = 2, b = 3.
The point (0, 10) lies on it since 100 mod 97 = 3. -/
def testCurve : Curve := { keySize := 7, p := 97, a := 2, b := 3 }

/-- A signing algorithm suite declaring testCurve. -/
def testAlgorithm : Algorithm := { signing_algorithm_info := some testCurve }

/-- One opaque encrypted data key. -/
def testEdk : EncryptedDataKey :=
  { key_provider_id := [1], key_provider_info := [2],
    encrypted_data_key := [3] }

/-- A context carrying the base64 encoding of the valid uncompressed point
(0, 10) on testCurve under the well-known signer-key field. -/
def testContext : EncryptionContext :=
  [(ENCODED_SIGNER_KEY, b64encode [4, 0, 10])]

/-- A request whose context declares a valid legacy-encoded signer key. -/
def testRequest : DecryptionRequest :=
  { encrypted_data_keys := [testEdk], algorithm := testAlgorithm,
    encryption_context := testContext }

/-- A request whose signer-key value is valid base64 of a byte string one
byte shorter than 1 + 2 * byteLength: it decodes to [4, 0], length 2,
while testCurve requires length 3. -/
def shortKeyRequest : DecryptionRequest :=
  { encrypted_data_keys := [testEdk], algorithm := testAlgorithm,
    encryption_context := [(ENCODED_SIGNER_KEY, b64encode [4, 0])] }

/-- A request whose signer-key value decodes to bytes not starting with
the uncompressed-point tag 0x04. -/
def badTagRequest : DecryptionRequest :=
  { encrypted_data_keys := [testEdk], algorithm := testAlgorithm,
    encryption_context := [(ENCODED_SIGNER_KEY, b64encode [5])] }

/-- A signing request whose context omits the signer-key field entirely. -/
def missingKeyRequest : DecryptionRequest :=
  { encrypted_data_keys := [testEdk], algorithm := testAlgorithm,
    encryption_context := [] }

/-- A master key provider stub that always supplies the data key [9]. -/
def okProvider :
    List EncryptedDataKey → Algorithm → EncryptionContext →
      Except PyError Bytes :=
  fun _ _ _ => .ok [9]

/-- A master key provider stub that always fails (for example, missing
permission on the backing key). -/
def failingProvider :
    List EncryptedDataKey → Algorithm → EncryptionContext →
      Except PyError Bytes :=
  fun _ _ _ => .error (.sdkClientError .providerFailure)

/-- A manager whose inherited resolver succeeds on every request. -/
def mgrStdOk : MrcryptLegacyCompatibilityCryptoMaterialsManager :=
  { master_key_provider := okProvider,
    super_decrypt_materials :=
      fun _ => .ok { data_key := [7], verification_key := some [8] } }

/-- A manager whose inherited resolver fails with the context-value error
(signer key present but not standard), with a working provider. -/
def mgrFallbackOk : MrcryptLegacyCompatibilityCryptoMaterialsManager :=
  { master_key_provider := okProvider,
    super_decrypt_materials :=
      fun _ => .error (.sdkClientError .contextValueError) }

/-- A manager whose inherited resolver fails with a provider failure and
whose provider keeps failing: every key-unwrapping attempt is denied. -/
def mgrProviderDown : MrcryptLegacyCompatibilityCryptoMaterialsManager :=
  { master_key_provider := failingProvider,
    super_decrypt_materials :=
      fun _ => .error (.sdkClientError .providerFailure) }

/-- A manager whose inherited resolver fails with the context-value error
while the provider fails on every call. -/
def mgrCtxErrProviderDown :
    MrcryptLegacyCompatibilityCryptoMaterialsManager :=
  { master_key_provider := failingProvider,
    super_decrypt_materials :=
      fun _ => .error (.sdkClientError .contextValueError) }

/-- A manager whose inherited resolver fails with KeyError on the missing
signer-key field, with a working provider. -/
def mgrMissingKey : MrcryptLegacyCompatibilityCryptoMaterialsManager :=
  { master_key_provider := okProvider,
    super_decrypt_materials :=
      fun _ => .error (.keyError ENCODED_SIGNER_KEY) }

/-! ## Arithmetic and encoding lemmas -/

theorem b64DecChar_enc {n : Nat} (h : n < 64) :
    b64DecChar (b64EncChar n) = some n := by
  have all : ∀ m : Fin 64, b64DecChar (b64EncChar m.val) = some m.val := by
    decide
  exact all ⟨n, h⟩

theorem b64EncChar_ne_pad {n : Nat} (h : n < 64) : b64EncChar n ≠ 61 := by
  have all : ∀ m : Fin 64, b64EncChar m.val ≠ 61 := by decide
  exact all ⟨n, h⟩

theorem b64decode_b64encode :
    ∀ bs : Bytes, (∀ b ∈ bs, b < 256) →
      b64decode (b64encode bs) = .ok bs
  | [], _ => rfl
  | [a], h => by
      have ha : a < 256 := h a (by simp)
      have e1 := b64DecChar_enc (n := a / 4) (by omega)
      have e2 := b64DecChar_enc (n := a % 4 * 16) (by omega)
      have k1 : a / 4 * 4 + a % 4 * 16 / 16 = a := by omega
      simp only [b64encode, b64decode, e1, e2]
      simp
      omega
  | [a, b], h => by
      have ha : a < 256 := h a (by simp)
      have hb : b < 256 := h b (by simp)
      have e1 := b64DecChar_enc (n := a / 4) (by omega)
      have e2 := b64DecChar_enc (n := a % 4 * 16 + b / 16) (by omega)
      have e3 := b64DecChar_enc (n := b % 16 * 4) (by omega)
      have ne3 := b64EncChar_ne_pad (n := b % 16 * 4) (by omega)
      have k1 : a / 4 * 4 + (a % 4 * 16 + b / 16) / 16 = a := by omega
      have k2 : (a % 4 * 16 + b / 16) % 16 * 16 + b % 16 * 4 / 4 = b := by
        omega
      simp only [b64encode, b64decode, e1, e2, e3]
      simp [ne3]
      omega
  | a :: b :: c :: rest, h => by
      have ha : a < 256 := h a (by simp)
      have hb : b < 256 := h b (by simp)
      have hc : c < 256 := h c (by simp)
      have ih := b64decode_b64encode rest (fun d hd => h d (by simp [hd]))
      have e1 := b64DecChar_enc (n := a / 4) (by omega)
      have e2 := b64DecChar_enc (n := a % 4 * 16 + b / 16) (by omega)
      have e3 := b64DecChar_enc (n := b % 16 * 4 + c / 64) (by omega)
      have e4 := b64DecChar_enc (n := c % 64) (by omega)
      have ne3 := b64EncChar_ne_pad (n := b % 16 * 4 + c / 64) (by omega)
      have ne4 := b64EncChar_ne_pad (n := c % 64) (by omega)
      have k1 : a / 4 * 4 + (a % 4 * 16 + b / 16) / 16 = a := by omega
      have k2 : (a % 4 * 16 + b / 16) % 16 * 16 +
          (b % 16 * 4 + c / 64) / 4 = b := by omega
      have k3 : (b % 16 * 4 + c / 64) % 4 * 64 + c % 64 = c := by omega
      simp only [b64encode, b64decode, e1, e2, e3, e4]
      simp [ne3, ne4, ih]
      omega

theorem natToBytes_length : ∀ s x : Nat, (natToBytes s x).length = s
  | 0, _ => rfl
  | s + 1, x => by simp [natToBytes, natToBytes_length s]

theorem natToBytes_lt : ∀ s x : Nat, ∀ b ∈ natToBytes s x, b < 256
  | 0, _ => by simp [natToBytes]
  | s + 1, x => by
      intro b hb
      simp only [natToBytes, List.mem_append, List.mem_singleton] at hb
      rcases hb with hmem | hEq
      · exact natToBytes_lt s (x / 256) b hmem
      · omega

theorem bytesToNat_append_one (l : Bytes) (b : Nat) :
    bytesToNat (l ++ [b]) = bytesToNat l * 256 + b := by
  simp [bytesToNat, List.foldl_append]

theorem bytesToNat_natToBytes :
    ∀ s x : Nat, x < 256 ^ s → bytesToNat (natToBytes s x) = x
  | 0, x, h => by
      have : x = 0 := by simpa using h
      simp [this, natToBytes, bytesToNat]
  | s + 1, x, h => by
      have hpow : (256 : Nat) ^ (s + 1) = 256 ^ s * 256 := pow_succ 256 s
      have hd : x / 256 < 256 ^ s := by omega
      have ih := bytesToNat_natToBytes s (x / 256) hd
      simp only [natToBytes, bytesToNat_append_one, ih]
      omega

theorem take_append_length {α : Type} (l1 l2 : List α) (n : Nat)
    (h : l1.length = n) : (l1 ++ l2).take n = l1 := by
  subst h
  exact List.take_left l1 l2

theorem drop_append_length {α : Type} (l1 l2 : List α) (n : Nat)
    (h : l1.length = n) : (l1 ++ l2).drop n = l2 := by
  subst h
  exact List.drop_left l1 l2

theorem load_missing_key (algorithm : Algorithm) (ctx : EncryptionContext)
    (h : lookupContext ctx ENCODED_SIGNER_KEY = none) :
    load_uncompressed_verification_key_from_encryption_context algorithm ctx
      = .error (.keyError ENCODED_SIGNER_KEY) := by
  simp only [load_uncompressed_verification_key_from_encryption_context, h]

theorem load_ok_shape (algorithm : Algorithm) (ctx : EncryptionContext)
    (vk : Bytes)
    (h : load_uncompressed_verification_key_from_encryption_context
      algorithm ctx = .ok vk) :
    algorithm.signing_algorithm_info ≠ none ∧
    lookupContext ctx ENCODED_SIGNER_KEY ≠ none := by
  unfold load_uncompressed_verification_key_from_encryption_context at h
  cases hctx : lookupContext ctx ENCODED_SIGNER_KEY with
  | none => simp only [hctx] at h; exact nomatch h
  | some s =>
    simp only [hctx] at h
    refine ⟨?_, by simp⟩
    intro hnone
    cases hdec : b64decode s with
    | error e => simp only [hdec] at h; exact nomatch h
    | ok up => simp only [hdec, hnone] at h; exact nomatch h

theorem load_short_point (algorithm : Algorithm) (ctx : EncryptionContext)
    (curve : Curve) (v bs : Bytes)
    (halg : algorithm.signing_algorithm_info = some curve)
    (hctx : lookupContext ctx ENCODED_SIGNER_KEY = some v)
    (hdec : b64decode v = .ok bs)
    (hlen : bs.length = 2 * curve.byteLength) :
    ∃ msg, load_uncompressed_verification_key_from_encryption_context
      algorithm ctx = .error (.malformedSignerKey msg) := by
  simp only [load_uncompressed_verification_key_from_encryption_context,
    hctx, hdec, halg]
  match bs, hlen with
  | [], _ => exact ⟨"point-empty", rfl⟩
  | t :: body, hlen =>
    by_cases ht : t = 4
    · subst ht
      have hne : ¬ body.length = 2 * curve.byteLength := by
        simp only [List.length_cons] at hlen
        omega
      simp only [fromEncodedPoint, if_pos rfl, if_neg hne]
      exact ⟨"point-length", rfl⟩
    · simp only [fromEncodedPoint, if_neg ht]
      exact ⟨"point-type", rfl⟩

theorem load_bad_tag (algorithm : Algorithm) (ctx : EncryptionContext)
    (curve : Curve) (v bs : Bytes)
    (halg : algorithm.signing_algorithm_info = some curve)
    (hctx : lookupContext ctx ENCODED_SIGNER_KEY = some v)
    (hdec : b64decode v = .ok bs)
    (htag : bs.head? ≠ some 4) :
    ∃ msg, load_uncompressed_verification_key_from_encryption_context
      algorithm ctx = .error (.malformedSignerKey msg) := by
  simp only [load_uncompressed_verification_key_from_encryption_context,
    hctx, hdec, halg]
  match bs, htag with
  | [], _ => exact ⟨"point-empty", rfl⟩
  | t :: body, htag =>
    have ht : ¬ t = 4 := by
      intro hEq
      exact htag (by simp [hEq])
    simp only [fromEncodedPoint, if_neg ht]
    exact ⟨"point-type", rfl⟩

theorem decrypt_fallback_provider_error
    (M : MrcryptLegacyCompatibilityCryptoMaterialsManager)
    (R : DecryptionRequest) (e pe : PyError)
    (hsuper : M.super_decrypt_materials R = .error e)
    (hcaught : e.isCaughtByFallback = true)
    (hmkp : M.master_key_provider R.encrypted_data_keys R.algorithm
      R.encryption_context = .error pe) :
    decrypt_materials M R =
      (.error pe,
       [.stdAttempt, .debugLog, .warnUncompressedKey,
        .providerCallErr pe]) := by
  simp [decrypt_materials, hsuper, hcaught, hmkp]

theorem decrypt_fallback_load_error
    (M : MrcryptLegacyCompatibilityCryptoMaterialsManager)
    (R : DecryptionRequest) (e : PyError) (k : Bytes) (ve : PyError)
    (hsuper : M.super_decrypt_materials R = .error e)
    (hcaught : e.isCaughtByFallback = true)
    (hmkp : M.master_key_provider R.encrypted_data_keys R.algorithm
      R.encryption_context = .ok k)
    (hload : load_uncompressed_verification_key_from_encryption_context
      R.algorithm R.encryption_context = .error ve) :
    decrypt_materials M R =
      (.error ve,
       [.stdAttempt, .debugLog, .warnUncompressedKey,
        .providerCallOk k, .decodeSignerKey]) := by
  simp [decrypt_materials, hsuper, hcaught, hmkp, hload]

theorem decrypt_fallback_ok
    (M : MrcryptLegacyCompatibilityCryptoMaterialsManager)
    (R : DecryptionRequest) (e : PyError) (k vk : Bytes)
    (hsuper : M.super_decrypt_materials R = .error e)
    (hcaught : e.isCaughtByFallback = true)
    (hmkp : M.master_key_provider R.encrypted_data_keys R.algorithm
      R.encryption_context = .ok k)
    (hload : load_uncompressed_verification_key_from_encryption_context
      R.algorithm R.encryption_context = .ok vk) :
    decrypt_materials M R =
      (.ok { data_key := k, verification_key := some vk },
       [.stdAttempt, .debugLog, .warnUncompressedKey,
        .providerCallOk k, .decodeSignerKey]) := by
  simp [decrypt_materials, hsuper, hcaught, hmkp, hload]

/-! ## Claim theorems -/

/-- Claim C1 (code bug): the claim states that any standard-path failure
other than SignerKeyFieldMissing or ContextValueError, for example a
provider failure, propagates unchanged and never enters the fallback. The
handler at line 66 instead catches every AWSEncryptionSDKClientError and
KeyError, so a provider failure enters the legacy fallback: the debug and
warning logs are emitted and the provider is invoked a second time. This
theorem evaluates the code at such a failing input. -/
theorem C1_broad_catch_enters_fallback :
    decrypt_materials mgrProviderDown testRequest =
      (.error (.sdkClientError .providerFailure),
       [.stdAttempt, .debugLog, .warnUncompressedKey,
        .providerCallErr (.sdkClientError .providerFailure)]) := rfl

/-- Claim C2, counterexample: a request entering the fallback whose
signer-key value is valid base64 of a byte string one byte shorter than
1 + 2 * byteLength does invoke the master key provider, refuting the
clause that the data-key decryption operation is never invoked. -/
theorem C2_counterexample_provider_invoked :
    lookupContext shortKeyRequest.encryption_context ENCODED_SIGNER_KEY
        = some (b64encode [4, 0]) ∧
    b64decode (b64encode [4, 0]) = .ok [4, 0] ∧
    ([4, 0] : Bytes).length = 2 * testCurve.byteLength ∧
    Event.providerCallOk [9] ∈
      (decrypt_materials mgrFallbackOk shortKeyRequest).2 := by
  refine ⟨rfl, rfl, rfl, ?_⟩
  decide

/-- Claim C2, amended: for every request entering the legacy fallback with
a signer-key value that is valid base64 but decodes to one byte less than
1 + 2 * byteLength, if the provider data-key call (which the code performs
before decoding the signer key) succeeds, resolve fails with the specific
MalformedSignerKey kind; the provider data-key operation is invoked. -/
theorem C2_short_signer_key_amended
    (M : MrcryptLegacyCompatibilityCryptoMaterialsManager)
    (R : DecryptionRequest) (e : PyError) (curve : Curve) (v bs k : Bytes)
    (hsuper : M.super_decrypt_materials R = .error e)
    (hcaught : e.isCaughtByFallback = true)
    (halg : R.algorithm.signing_algorithm_info = some curve)
    (hctx : lookupContext R.encryption_context ENCODED_SIGNER_KEY = some v)
    (hdec : b64decode v = .ok bs)
    (hlen : bs.length = 2 * curve.byteLength)
    (hmkp : M.master_key_provider R.encrypted_data_keys R.algorithm
      R.encryption_context = .ok k) :
    (∃ msg, (decrypt_materials M R).1 =
      .error (.malformedSignerKey msg)) ∧
    Event.providerCallOk k ∈ (decrypt_materials M R).2 := by
  obtain ⟨msg, hload⟩ := load_short_point R.algorithm R.encryption_context
    curve v bs halg hctx hdec hlen
  rw [decrypt_fallback_load_error M R e k (.malformedSignerKey msg)
    hsuper hcaught hmkp hload]
  exact ⟨⟨msg, rfl⟩, by simp⟩

/-- Witness for C2 amended at a concrete manager and request. -/
theorem C2_short_signer_key_amended_witness :
    (∃ msg, (decrypt_materials mgrFallbackOk shortKeyRequest).1 =
      .error (.malformedSignerKey msg)) ∧
    Event.providerCallOk [9] ∈
      (decrypt_materials mgrFallbackOk shortKeyRequest).2 :=
  C2_short_signer_key_amended mgrFallbackOk shortKeyRequest
    (.sdkClientError .contextValueError) testCurve (b64encode [4, 0])
    [4, 0] [9] rfl rfl rfl rfl rfl rfl rfl

/-- Claim C3: whenever the wrapped standard resolver succeeds, resolve
returns its output unchanged and the trace holds only the delegation
event: no fallback, no log emission, no provider call, no point decode. -/
theorem C3_standard_success_identity
    (M : MrcryptLegacyCompatibilityCryptoMaterialsManager)
    (R : DecryptionRequest) (m : DecryptionMaterials)
    (hsuper : M.super_decrypt_materials R = .ok m) :
    decrypt_materials M R = (.ok m, [Event.stdAttempt]) := by
  simp [decrypt_materials, hsuper]

/-- Witness for C3 at a concrete manager and request. -/
theorem C3_standard_success_identity_witness :
    decrypt_materials mgrStdOk testRequest =
      (.ok { data_key := [7], verification_key := some [8] },
       [Event.stdAttempt]) :=
  C3_standard_success_identity mgrStdOk testRequest
    { data_key := [7], verification_key := some [8] } rfl

/-- Claim C4: for a signing-algorithm request whose context omits the
signer-key field, the legacy fallback is invoked (the warning event is in
the trace) and the data-key portion still succeeds when the provider can
supply the key (the provider-call event carries the supplied key). -/
theorem C4_missing_field_fallback_data_key
    (M : MrcryptLegacyCompatibilityCryptoMaterialsManager)
    (R : DecryptionRequest) (k : Bytes)
    (_hsign : R.algorithm.signing_algorithm_info ≠ none)
    (hmissing : lookupContext R.encryption_context ENCODED_SIGNER_KEY
      = none)
    (hsuper : M.super_decrypt_materials R =
      .error (.keyError ENCODED_SIGNER_KEY))
    (hmkp : M.master_key_provider R.encrypted_data_keys R.algorithm
      R.encryption_context = .ok k) :
    Event.warnUncompressedKey ∈ (decrypt_materials M R).2 ∧
    Event.providerCallOk k ∈ (decrypt_materials M R).2 := by
  have hload := load_missing_key R.algorithm R.encryption_context hmissing
  rw [decrypt_fallback_load_error M R (.keyError ENCODED_SIGNER_KEY) k
    (.keyError ENCODED_SIGNER_KEY) hsuper rfl hmkp hload]
  exact ⟨by simp, by simp⟩

/-- Witness for C4 at a concrete manager and request. -/
theorem C4_missing_field_fallback_data_key_witness :
    Event.warnUncompressedKey ∈
      (decrypt_materials mgrMissingKey missingKeyRequest).2 ∧
    Event.providerCallOk [9] ∈
      (decrypt_materials mgrMissingKey missingKeyRequest).2 :=
  C4_missing_field_fallback_data_key mgrMissingKey missingKeyRequest [9]
    (by decide) rfl rfl rfl

/-- Claim C5: whenever resolve returns successfully, and the wrapped
standard resolver itself satisfies the output invariant on its successes,
the returned materials never carry a verification key for a non-signing
algorithm and never lack one for a signing algorithm whose context
declares a signer key. -/
theorem C5_materials_invariant_holds
    (M : MrcryptLegacyCompatibilityCryptoMaterialsManager)
    (R : DecryptionRequest) (m : DecryptionMaterials) (evs : List Event)
    (hstd : ∀ R2 m2, M.super_decrypt_materials R2 = .ok m2 →
      materialsInvariant R2 m2)
    (hres : decrypt_materials M R = (.ok m, evs)) :
    materialsInvariant R m := by
  cases hsuper : M.super_decrypt_materials R with
  | ok m2 =>
    have heval : decrypt_materials M R = (.ok m2, [Event.stdAttempt]) := by
      simp [decrypt_materials, hsuper]
    rw [heval] at hres
    injection hres with h1 h2
    injection h1 with h1
    exact h1 ▸ hstd R m2 hsuper
  | error e =>
    by_cases hc : e.isCaughtByFallback = true
    · cases hmkp : M.master_key_provider R.encrypted_data_keys R.algorithm
        R.encryption_context with
      | error pe =>
        rw [decrypt_fallback_provider_error M R e pe hsuper hc hmkp]
          at hres
        injection hres with h1 h2
        exact nomatch h1
      | ok k =>
        cases hload :
            load_uncompressed_verification_key_from_encryption_context
              R.algorithm R.encryption_context with
        | error ve =>
          rw [decrypt_fallback_load_error M R e k ve hsuper hc hmkp hload]
            at hres
          injection hres with h1 h2
          exact nomatch h1
        | ok vk =>
          rw [decrypt_fallback_ok M R e k vk hsuper hc hmkp hload] at hres
          injection hres with h1 h2
          injection h1 with h1
          obtain ⟨hsig, _⟩ := load_ok_shape R.algorithm
            R.encryption_context vk hload
          constructor
          · intro hnone
            exact absurd hnone hsig
          · intro _ _
            rw [← h1]
            simp
    · have heval : decrypt_materials M R = (.error e, [Event.stdAttempt])
          := by
        simp [decrypt_materials, hsuper, hc]
      rw [heval] at hres
      injection hres with h1 h2
      exact nomatch h1

/-- Witness for C5 at a concrete manager and request resolved through the
legacy fallback. -/
theorem C5_materials_invariant_holds_witness :
    materialsInvariant testRequest
      { data_key := [9],
        verification_key := some (derSubjectPublicKeyInfo testCurve 0 10) }
    :=
  C5_materials_invariant_holds mgrFallbackOk testRequest
    { data_key := [9],
      verification_key := some (derSubjectPublicKeyInfo testCurve 0 10) }
    [.stdAttempt, .debugLog, .warnUncompressedKey, .providerCallOk [9],
     .decodeSignerKey]
    (fun _ _ h => nomatch h) rfl

/-- Claim C6: every request resolved via the legacy fallback returns
data-key material byte-identical to what the data-key portion of the
standard path would have produced: the provider applied to the unchanged
encrypted-data-key list, algorithm, and context of the request. -/
theorem C6_fallback_data_key_refines_standard
    (M : MrcryptLegacyCompatibilityCryptoMaterialsManager)
    (R : DecryptionRequest) (e : PyError) (m : DecryptionMaterials)
    (evs : List Event)
    (hsuper : M.super_decrypt_materials R = .error e)
    (hcaught : e.isCaughtByFallback = true)
    (hres : decrypt_materials M R = (.ok m, evs)) :
    standardDataKeyPortion M R = .ok m.data_key := by
  cases hmkp : M.master_key_provider R.encrypted_data_keys R.algorithm
      R.encryption_context with
  | error pe =>
    rw [decrypt_fallback_provider_error M R e pe hsuper hcaught hmkp]
      at hres
    injection hres with h1 h2
    exact nomatch h1
  | ok k =>
    cases hload :
        load_uncompressed_verification_key_from_encryption_context
          R.algorithm R.encryption_context with
    | error ve =>
      rw [decrypt_fallback_load_error M R e k ve hsuper hcaught hmkp hload]
        at hres
      injection hres with h1 h2
      exact nomatch h1
    | ok vk =>
      rw [decrypt_fallback_ok M R e k vk hsuper hcaught hmkp hload] at hres
      injection hres with h1 h2
      injection h1 with h1
      unfold standardDataKeyPortion
      rw [hmkp, ← h1]

/-- Witness for C6 at a concrete manager and request. -/
theorem C6_fallback_data_key_refines_standard_witness :
    standardDataKeyPortion mgrFallbackOk testRequest = .ok [9] :=
  C6_fallback_data_key_refines_standard mgrFallbackOk testRequest
    (.sdkClientError .contextValueError)
    { data_key := [9],
      verification_key := some (derSubjectPublicKeyInfo testCurve 0 10) }
    [.stdAttempt, .debugLog, .warnUncompressedKey, .providerCallOk [9],
     .decodeSignerKey]
    rfl rfl rfl

/-- Claim C8, counterexample: a request entering the fallback whose
signer-key value decodes to bytes not starting with 0x04 can nevertheless
fail with the provider failure rather than MalformedSignerKey, because the
code invokes the provider before decoding the signer key; here the
provider is down and its failure is what resolve reports. -/
theorem C8_counterexample_provider_failure_preempts :
    lookupContext badTagRequest.encryption_context ENCODED_SIGNER_KEY
        = some (b64encode [5]) ∧
    b64decode (b64encode [5]) = .ok [5] ∧
    ([5] : Bytes).head? ≠ some 4 ∧
    (decrypt_materials mgrCtxErrProviderDown badTagRequest).1 =
      .error (.sdkClientError .providerFailure) ∧
    ∀ msg, (decrypt_materials mgrCtxErrProviderDown badTagRequest).1 ≠
      .error (.malformedSignerKey msg) := by
  refine ⟨rfl, rfl, by decide, rfl, ?_⟩
  intro msg h
  rw [show (decrypt_materials mgrCtxErrProviderDown badTagRequest).1 =
    .error (.sdkClientError .providerFailure) from rfl] at h
  exact nomatch h

/-- Claim C8, amended: for every request entering the legacy fallback
whose signer-key value base64-decodes to bytes not starting with the
uncompressed-point tag 0x04, if the provider data-key call (performed
first by the code) succeeds, resolve fails with MalformedSignerKey. -/
theorem C8_bad_tag_amended
    (M : MrcryptLegacyCompatibilityCryptoMaterialsManager)
    (R : DecryptionRequest) (e : PyError) (curve : Curve) (v bs k : Bytes)
    (hsuper : M.super_decrypt_materials R = .error e)
    (hcaught : e.isCaughtByFallback = true)
    (halg : R.algorithm.signing_algorithm_info = some curve)
    (hctx : lookupContext R.encryption_context ENCODED_SIGNER_KEY = some v)
    (hdec : b64decode v = .ok bs)
    (htag : bs.head? ≠ some 4)
    (hmkp : M.master_key_provider R.encrypted_data_keys R.algorithm
      R.encryption_context = .ok k) :
    ∃ msg, (decrypt_materials M R).1 =
      .error (.malformedSignerKey msg) := by
  obtain ⟨msg, hload⟩ := load_bad_tag R.algorithm R.encryption_context
    curve v bs halg hctx hdec htag
  rw [decrypt_fallback_load_error M R e k (.malformedSignerKey msg)
    hsuper hcaught hmkp hload]
  exact ⟨msg, rfl⟩

/-- Witness for C8 amended at a concrete manager and request. -/
theorem C8_bad_tag_amended_witness :
    ∃ msg, (decrypt_materials mgrFallbackOk badTagRequest).1 =
      .error (.malformedSignerKey msg) :=
  C8_bad_tag_amended mgrFallbackOk badTagRequest
    (.sdkClientError .contextValueError) testCurve (b64encode [5]) [5] [9]
    rfl rfl rfl rfl rfl (by decide) rfl

/-- Claim C9: every request resolved successfully via the legacy fallback
emits the warning-level advisory event noting that legacy uncompressed-key
decoding was used. -/
theorem C9_legacy_success_emits_warning
    (M : MrcryptLegacyCompatibilityCryptoMaterialsManager)
    (R : DecryptionRequest) (e : PyError) (m : DecryptionMaterials)
    (evs : List Event)
    (hsuper : M.super_decrypt_materials R = .error e)
    (hcaught : e.isCaughtByFallback = true)
    (hres : decrypt_materials M R = (.ok m, evs)) :
    Event.warnUncompressedKey ∈ evs := by
  cases hmkp : M.master_key_provider R.encrypted_data_keys R.algorithm
      R.encryption_context with
  | error pe =>
    rw [decrypt_fallback_provider_error M R e pe hsuper hcaught hmkp]
      at hres
    injection hres with h1 h2
    exact nomatch h1
  | ok k =>
    cases hload :
        load_uncompressed_verification_key_from_encryption_context
          R.algorithm R.encryption_context with
    | error ve =>
      rw [decrypt_fallback_load_error M R e k ve hsuper hcaught hmkp hload]
        at hres
      injection hres with h1 h2
      exact nomatch h1
    | ok vk =>
      rw [decrypt_fallback_ok M R e k vk hsuper hcaught hmkp hload] at hres
      injection hres with h1 h2
      rw [← h2]
      simp

/-- Witness for C9 at a concrete manager and request. -/
theorem C9_legacy_success_emits_warning_witness :
    Event.warnUncompressedKey ∈
      (decrypt_materials mgrFallbackOk testRequest).2 :=
  C9_legacy_success_emits_warning mgrFallbackOk testRequest
    (.sdkClientError .contextValueError)
    { data_key := [9],
      verification_key := some (derSubjectPublicKeyInfo testCurve 0 10) }
    (decrypt_materials mgrFallbackOk testRequest).2 rfl rfl rfl

/-- Claim C10: whenever the standard path fails with a caught kind, the
trace starts with the delegation, the debug log, and then the warning
advisory, before any provider-call or decode event, whatever the outcome;
in particular the advisory is emitted even when the fallback then fails. -/
theorem C10_warning_before_provider_and_decode
    (M : MrcryptLegacyCompatibilityCryptoMaterialsManager)
    (R : DecryptionRequest) (e : PyError)
    (res : Except PyError DecryptionMaterials) (evs : List Event)
    (hsuper : M.super_decrypt_materials R = .error e)
    (hcaught : e.isCaughtByFallback = true)
    (hres : decrypt_materials M R = (res, evs)) :
    (∃ rest, evs = Event.stdAttempt :: Event.debugLog ::
      Event.warnUncompressedKey :: rest) ∧
    Event.warnUncompressedKey ∈ evs := by
  cases hmkp : M.master_key_provider R.encrypted_data_keys R.algorithm
      R.encryption_context with
  | error pe =>
    rw [decrypt_fallback_provider_error M R e pe hsuper hcaught hmkp]
      at hres
    injection hres with h1 h2
    subst h2
    exact ⟨⟨_, rfl⟩, by simp⟩
  | ok k =>
    cases hload :
        load_uncompressed_verification_key_from_encryption_context
          R.algorithm R.encryption_context with
    | error ve =>
      rw [decrypt_fallback_load_error M R e k ve hsuper hcaught hmkp hload]
        at hres
      injection hres with h1 h2
      subst h2
      exact ⟨⟨_, rfl⟩, by simp⟩
    | ok vk =>
      rw [decrypt_fallback_ok M R e k vk hsuper hcaught hmkp hload] at hres
      injection hres with h1 h2
      subst h2
      exact ⟨⟨_, rfl⟩, by simp⟩

/-- Witness for C10 at a concrete manager and request whose fallback
itself fails: the advisory is still in the trace, right after the
delegation and debug events. -/
theorem C10_warning_before_provider_and_decode_witness :
    (∃ rest, (decrypt_materials mgrProviderDown testRequest).2 =
      Event.stdAttempt :: Event.debugLog ::
        Event.warnUncompressedKey :: rest) ∧
    Event.warnUncompressedKey ∈
      (decrypt_materials mgrProviderDown testRequest).2 :=
  C10_warning_before_provider_and_decode mgrProviderDown testRequest
    (.sdkClientError .providerFailure)
    (decrypt_materials mgrProviderDown testRequest).1
    (decrypt_materials mgrProviderDown testRequest).2 rfl rfl rfl

/-- C7: for every EC public key valid on the declared curve of the
algorithm, encoding it as a raw uncompressed point (tag byte 0x04 followed
by X then Y at the field-element byte size), base64-encoding that into the
encryption context, and running the fallback decoder yields exactly the
standard-container (DER SubjectPublicKeyInfo) bytes of the original key,
byte-identical to encoding the original key directly in that container. -/
theorem C7_uncompressed_point_roundtrip
    (algorithm : Algorithm) (ctx : EncryptionContext) (curve : Curve)
    (x y : Nat)
    (halg : algorithm.signing_algorithm_info = some curve)
    (hx : x < 256 ^ curve.byteLength) (hy : y < 256 ^ curve.byteLength)
    (hcurve : curve.onCurve x y = true)
    (hctx : lookupContext ctx ENCODED_SIGNER_KEY =
      some (b64encode (4 ::
        (natToBytes curve.byteLength x ++ natToBytes curve.byteLength y)))) :
    load_uncompressed_verification_key_from_encryption_context algorithm ctx
      = .ok (derSubjectPublicKeyInfo curve x y) := by
  have hmem : ∀ b ∈ (4 :: (natToBytes curve.byteLength x ++
      natToBytes curve.byteLength y) : Bytes), b < 256 := by
    intro b hb
    simp only [List.mem_cons, List.mem_append] at hb
    rcases hb with rfl | h | h
    · omega
    · exact natToBytes_lt _ _ b h
    · exact natToBytes_lt _ _ b h
  have hdec := b64decode_b64encode _ hmem
  have hlenx := natToBytes_length curve.byteLength x
  have hleny := natToBytes_length curve.byteLength y
  have hlen : (natToBytes curve.byteLength x ++
      natToBytes curve.byteLength y).length = 2 * curve.byteLength := by
    rw [List.length_append, hlenx, hleny]
    omega
  have htake := take_append_length (natToBytes curve.byteLength x)
    (natToBytes curve.byteLength y) curve.byteLength hlenx
  have hdrop := drop_append_length (natToBytes curve.byteLength x)
    (natToBytes curve.byteLength y) curve.byteLength hlenx
  have hbx := bytesToNat_natToBytes curve.byteLength x hx
  have hby := bytesToNat_natToBytes curve.byteLength y hy
  simp only [load_uncompressed_verification_key_from_encryption_context,
    hctx, hdec, halg, fromEncodedPoint, hlen, htake, hdrop, hbx, hby,
    ecPublicKeyCheck, hcurve, if_true, if_pos rfl]

/-- Witness for C7 at the concrete curve testCurve and its point (0, 10):
the fallback decoder reconstructs exactly the standard-container bytes of
the original key. -/
theorem C7_uncompressed_point_roundtrip_witness :
    load_uncompressed_verification_key_from_encryption_context
      testAlgorithm testContext
      = .ok (derSubjectPublicKeyInfo testCurve 0 10) :=
  C7_uncompressed_point_roundtrip testAlgorithm testContext testCurve 0 10
    rfl (by decide) (by decide) (by decide) rfl

end Mrcrypt
